import Mathlib

/-!
Shallow embedding of the yotohero card-synchronization and token-lifecycle
code (src/lib/yoto/library.ts, src/unnamed/part_002, src/lib/utils/errors.ts).

Modelling conventions, applied uniformly:
* JS values that may be `undefined`/`null` are `Option`; the JS falsy test on
  a string field (`!x`) is `truthyStr x = none` (absent or empty string).
* `fetch` behaviour is an oracle: each endpoint call is a `FetchResult`
  supplied by an environment record.  `.ok` carries the parsed 2xx JSON body,
  `.nonOk` carries the status and the `.text()` body, `.reject` is a network
  failure or a thrown JSON-parse error.
* Thrown JS exceptions are the `Thrown` inductive, mirroring the error
  classes of src/lib/utils/errors.ts actually used by this code; a plain
  `new Error(m)` is `Thrown.jsError m`.
* Numeric media fields (duration, fileSize) are modelled as `Nat`; the
  float computation of `readableFileSize` is modelled as an exact rational.
* Logging calls (`yotoLogger.*`, `console.*`) have no effect on any result
  and are omitted.
-/

set_option autoImplicit false

namespace Yoto

/-- The apostrophe character, kept out of string literals. -/
def apostrophe : Char := Char.ofNat 39

/-- JS truthiness of an optional string: `none` for absent/null/empty. -/
def truthyStr : Option String → Option String
  | none => none
  | some s => if s = "" then none else some s

/-- JS `a || b` on two optional strings (empty string is falsy). -/
def jsOr (a b : Option String) : Option String :=
  match truthyStr a with
  | some s => some s
  | none => b

/-- JS `a || b || c` on three optional strings. -/
def jsOr3 (a b c : Option String) : Option String := jsOr a (jsOr b c)

/-- JS `a || b` where `b` is a definite string, yielding a definite string. -/
def jsOrStr (a : Option String) (b : String) : String :=
  match truthyStr a with
  | some s => s
  | none => b

/-- JS `n.toString().padStart(2, "0")`. -/
def padStart2 (n : Nat) : String :=
  let s := Nat.repr n
  if s.length < 2 then "0" ++ s else s

/-- JS `\w` character class (ASCII word character). -/
def isWordChar (c : Char) : Bool := c.isAlphanum || c = '_'

/-- JS whitespace (`\s`), approximated by `Char.isWhitespace`. -/
def isJsSpace (c : Char) : Bool := c.isWhitespace

/-- Core of `toTitleCase` from library.ts: each maximal `\w\S*` regex match
is replaced by its first character uppercased and the rest lowercased, and
characters outside matches are copied unchanged.  Stated as a two-state
scanner: a match starts at a word character outside a match, extends
through every following non-space character, and ends at whitespace. -/
def titleCaseChars : Bool → List Char → List Char
  | _, [] => []
  | true, c :: cs =>
    if isJsSpace c then c :: titleCaseChars false cs
    else c.toLower :: titleCaseChars true cs
  | false, c :: cs =>
    if isWordChar c then c.toUpper :: titleCaseChars true cs
    else c :: titleCaseChars false cs

/-- toTitleCase from library.ts (`str.replace` over the `\w\S*` regex). -/
def toTitleCase (s : String) : String := String.mk (titleCaseChars false s.data)

/-- JS `Math.round` on a nonnegative exact rational. -/
def jsRound (q : ℚ) : ℤ := ⌊q + 1 / 2⌋

/-- The `readableFileSize` computation
`Math.round((fileSize / 1024 / 1024) * 10) / 10`, as an exact rational. -/
def readableFileSize (fileSize : Nat) : ℚ :=
  ((jsRound ((fileSize : ℚ) / 1024 / 1024 * 10) : ℚ)) / 10

/-- Context values attached to `YotoAPIError` (`Record<string, any>`). -/
inductive CtxVal where
  | str (s : String)
  | num (n : Nat)
  | undef
deriving DecidableEq, Repr

/-- Error context objects are modelled as key/value lists. -/
abbrev ErrorCtx : Type := List (String × CtxVal)

/-- Context value of an optional string (absent field becomes `undefined`). -/
def ctxOfOptStr : Option String → CtxVal
  | none => .undef
  | some s => .str s

/-- Thrown JS values, restricted to the classes this code throws
(src/lib/utils/errors.ts plus plain `Error`).  `message` stores the final
`.message` string; for `YotoAPIError` the `ExternalServiceError` constructor
has already prefixed the service name.  `nonError` is a thrown non-`Error`
value. -/
inductive Thrown where
  | jsError (message : String)
  | authenticationError (message : String)
  | configurationError (message : String)
  | yotoAPIError (message : String) (ctx : ErrorCtx)
  | internalServerError (message : String)
  | nonError
deriving DecidableEq, Repr

/-- Constructor helper mirroring `new YotoAPIError(m, ctx)`: the
`ExternalServiceError` superclass builds the message `Yoto API: ` ++ m. -/
def mkYotoAPIError (m : String) (ctx : ErrorCtx) : Thrown :=
  .yotoAPIError ("Yoto API: " ++ m) ctx

/-- The `.message` of a thrown value that is an `Error` instance;
`none` for a thrown non-`Error` value. -/
def thrownMessage : Thrown → Option String
  | .jsError m => some m
  | .authenticationError m => some m
  | .configurationError m => some m
  | .yotoAPIError m _ => some m
  | .internalServerError m => some m
  | .nonError => none

/-- Whether a thrown value is one of the `AppError` classes. -/
def isAppError : Thrown → Bool
  | .jsError _ => false
  | .nonError => false
  | _ => true

/-- normalizeError from errors.ts, followed by `.message`: an `AppError`
keeps its message, a plain `Error` is wrapped as `InternalServerError` with
the same message, anything else becomes the default message. -/
def normalizeErrorMessage (e : Thrown) (defaultMessage : String) : String :=
  match e with
  | .jsError m => m
  | .nonError => defaultMessage
  | .authenticationError m => m
  | .configurationError m => m
  | .yotoAPIError m _ => m
  | .internalServerError m => m

/-- JS `error instanceof Error ? error.message : "Unknown error"`. -/
def thrownMessageOrUnknown (e : Thrown) : String :=
  match thrownMessage e with
  | some m => m
  | none => "Unknown error"

/-- Outcome of one `fetch` call: network rejection (or a throw while reading
the body), a 2xx response with parsed body `α`, or a non-2xx response whose
body text is `β` (a `String` for endpoints read via `.text()`). -/
inductive FetchResult (α β : Type) where
  | reject (e : Thrown)
  | ok (body : α)
  | nonOk (status : Nat) (body : β)
deriving DecidableEq, Repr

/-! ## Data model of library.ts -/

/-- The `transcodedInfo` media metadata object (fields may be absent). -/
structure MediaInfo where
  duration : Option Nat
  fileSize : Option Nat
  channels : Option String
  format : Option String
deriving DecidableEq, Repr

/-- The `transcode` object returned by the transcode-status endpoint
(`transcodedSha256` plus `transcodedInfo`; the info object may be absent,
the code reads it as `mediaInfo?.duration` etc.). -/
structure TranscodedAudio where
  transcodedSha256 : String
  transcodedInfo : Option MediaInfo
deriving DecidableEq, Repr

/-- A track in the canonical write shape produced by
`createChapterFromStory` and the `cleanExistingChapters` mapping. -/
structure Track where
  key : Option String
  title : Option String
  trackUrl : Option String
  duration : Option Nat
  fileSize : Option Nat
  channels : Option String
  format : Option String
  type : Option String
  overlayLabel : Option String
deriving DecidableEq, Repr

/-- A chapter in the canonical write shape: the nine-field track list plus
the constant `display.icon16x16`. -/
structure Chapter where
  key : Option String
  title : Option String
  overlayLabel : Option String
  tracks : Option (List Track)
  icon16x16 : Option String
deriving DecidableEq, Repr

/-- A chapter as read back from the remote card.  The remote read shape may
carry extra fields; only the fields the code actually reads are modelled,
each optional since the JSON is untyped. -/
structure RemoteTrack where
  key : Option String
  title : Option String
  trackUrl : Option String
  duration : Option Nat
  fileSize : Option Nat
  channels : Option String
  format : Option String
  type : Option String
  overlayLabel : Option String
deriving DecidableEq, Repr

/-- Remote chapter read shape (`chapter.tracks` may be absent). -/
structure RemoteChapter where
  key : Option String
  title : Option String
  overlayLabel : Option String
  tracks : Option (List RemoteTrack)
deriving DecidableEq, Repr

/-- The `content` object of a remote card (`content.chapters`). -/
structure CardRead where
  chapters : Option (List RemoteChapter)
deriving DecidableEq, Repr

/-- A remote card object, as it appears both in the `/content/mine` list
and in the `/content/:id` detail response.  `createdAt` is modelled by its
`new Date(x).getTime()` value; `metadataMediaDuration` and
`metadataMediaFileSize` are `card.metadata?.media?.duration` and
`card.metadata?.media?.fileSize`. -/
structure Card where
  cardId : Option String
  id : Option String
  title : Option String
  createdAt : Option Int
  content : Option CardRead
  metadataMediaDuration : Option Nat
  metadataMediaFileSize : Option Nat
deriving DecidableEq, Repr

/-- Parsed body of `GET /content/mine` (`data.cards` may be absent). -/
structure MineResponse where
  cards : Option (List Card)
deriving DecidableEq, Repr

/-- Parsed body of `GET /content/:id`.  The code reads
`fullCardData.card || fullCardData`: `card` is the optional nested card
property and `self` is the whole body reinterpreted as a card. -/
structure DetailResponse where
  card : Option Card
  self : Card
deriving DecidableEq, Repr

/-- Parsed body of a 2xx `POST /content` response; the code reads
`result.cardId`, `result.card?.cardId` and `result.id`. -/
structure WriteResponse where
  cardId : Option String
  cardCardId : Option String
  id : Option String
deriving DecidableEq, Repr

/-- The full card document sent to `POST /content`.  The media metadata
object is flattened (`metadata.media.duration`, `metadata.media.fileSize`,
`metadata.media.readableFileSize`); `readableFileSize` is `none` when the
JS computation would be `NaN` (fileSize absent). -/
structure ContentPayload where
  cardId : Option String
  title : String
  chapters : List Chapter
  playbackType : Option String
  resumeTimeout : Option Nat
  mediaDuration : Option Nat
  mediaFileSize : Option Nat
  readableFileSize : Option ℚ
deriving DecidableEq, Repr

/-- Caller-supplied story metadata (`title` optional). -/
structure StoryMetadata where
  childName : String
  adventureType : String
  specialSkill : String
  title : Option String
deriving DecidableEq, Repr

/-- The uniform result shape of the library entry points. -/
structure YotoUploadResult where
  success : Bool
  cardId : Option String
  error : Option String
  transcodeInfo : Option TranscodedAudio
deriving DecidableEq, Repr

/-- The constant card title from library.ts. -/
def HERO_CARD_TITLE : String := "You" ++ String.singleton apostrophe ++ "re The Hero!"

/-- The constant chapter icon hash from createChapterFromStory. -/
def chapterIcon : String := "yoto:#gTMbacpoeSMYqc9fNLJnxPjylraNG6jIrYEWevyzYbA"

/-! ## createChapterFromStory and the write payloads -/

/-- createChapterFromStory from library.ts. -/
def createChapterFromStory (storyMetadata : StoryMetadata)
    (transcodedAudio : TranscodedAudio) (chapterNumber : Nat) : Chapter :=
  let mediaInfo := transcodedAudio.transcodedInfo
  let adventureTypeFormatted :=
    String.map (fun c => if c = '-' then ' ' else c) storyMetadata.adventureType
  let storyTitle := jsOrStr storyMetadata.title
    (storyMetadata.childName ++ String.singleton apostrophe ++ "s "
      ++ toTitleCase adventureTypeFormatted ++ " Adventure")
  let titleCaseTitle := toTitleCase storyTitle
  { key := some (padStart2 chapterNumber)
    title := some titleCaseTitle
    overlayLabel := some (Nat.repr chapterNumber)
    tracks := some [
      { key := some "01"
        title := some titleCaseTitle
        trackUrl := some ("yoto:#" ++ transcodedAudio.transcodedSha256)
        duration := mediaInfo.bind (·.duration)
        fileSize := mediaInfo.bind (·.fileSize)
        channels := mediaInfo.bind (·.channels)
        format := mediaInfo.bind (·.format)
        type := some "audio"
        overlayLabel := some "1" }]
    icon16x16 := some chapterIcon }

/-- The per-track part of the `cleanExistingChapters` mapping in
updateHeroCard: re-serialize a remote track into the canonical nine
fields. -/
def cleanTrack (track : RemoteTrack) : Track :=
  { key := track.key
    title := track.title
    trackUrl := track.trackUrl
    duration := track.duration
    fileSize := track.fileSize
    channels := track.channels
    format := track.format
    type := track.type
    overlayLabel := track.overlayLabel }

/-- The per-chapter part of the `cleanExistingChapters` mapping in
updateHeroCard: keep key/title/overlayLabel, map the tracks, and replace
`display` by the constant icon. -/
def cleanChapter (chapter : RemoteChapter) : Chapter :=
  { key := chapter.key
    title := chapter.title
    overlayLabel := chapter.overlayLabel
    tracks := chapter.tracks.map (List.map cleanTrack)
    icon16x16 := some chapterIcon }

/-- The card document built by createHeroCard (lines 391-411 of
library.ts): a single chapter, `playbackType`/`config` included, media
metadata taken from the new transcode only. -/
def createHeroCardPayload (storyMetadata : StoryMetadata)
    (transcodedAudio : TranscodedAudio) : ContentPayload :=
  let mediaInfo := transcodedAudio.transcodedInfo
  let chapters := [createChapterFromStory storyMetadata transcodedAudio 1]
  { cardId := none
    title := HERO_CARD_TITLE
    chapters := chapters
    playbackType := some "linear"
    resumeTimeout := some 2592000
    mediaDuration := mediaInfo.bind (·.duration)
    mediaFileSize := mediaInfo.bind (·.fileSize)
    readableFileSize := (mediaInfo.bind (·.fileSize)).map readableFileSize }

/-- The card document built by updateHeroCard (lines 486-556 of
library.ts) from the resolved full card: clean the existing chapters,
append the new chapter keyed `existingChapters.length + 1`, and set the
media metadata to the previously stored aggregate plus the new transcode
values (`existingDuration + mediaInfo?.duration`, both read with
`|| 0`). -/
def updateHeroCardPayload (fullCard : Card) (storyMetadata : StoryMetadata)
    (transcodedAudio : TranscodedAudio) : ContentPayload :=
  let existingChapters := (fullCard.content.bind (·.chapters)).getD []
  let nextChapterNumber := existingChapters.length + 1
  let newChapter := createChapterFromStory storyMetadata transcodedAudio nextChapterNumber
  let cleanExistingChapters := existingChapters.map cleanChapter
  let allChapters := cleanExistingChapters ++ [newChapter]
  let mediaInfo := transcodedAudio.transcodedInfo
  let existingDuration := fullCard.metadataMediaDuration.getD 0
  let existingFileSize := fullCard.metadataMediaFileSize.getD 0
  let newDuration := existingDuration + (mediaInfo.bind (·.duration)).getD 0
  let newFileSize := existingFileSize + (mediaInfo.bind (·.fileSize)).getD 0
  let cardId := jsOr fullCard.cardId fullCard.id
  { cardId := cardId
    title := HERO_CARD_TITLE
    chapters := allChapters
    playbackType := none
    resumeTimeout := none
    mediaDuration := some newDuration
    mediaFileSize := some newFileSize
    readableFileSize := some (readableFileSize newFileSize) }

/-! ## The card API environment and the card functions -/

/-- Behaviour of the three Yoto content endpoints used by getHeroCard,
createHeroCard and updateHeroCard.  `fetchContentDetail` is keyed by the
id interpolated into the URL (`none` when the id expression was
`undefined`). -/
structure CardApiEnv where
  fetchContentMine : FetchResult MineResponse String
  fetchContentDetail : Option String → FetchResult DetailResponse String
  postContent : ContentPayload → FetchResult WriteResponse String

/-- JS `fullCardData.card || fullCardData`. -/
def cardOrSelf (d : DetailResponse) : Card := d.card.getD d.self

/-- The id patch in getHeroCard:
`if (!c.cardId && !c.id) c.cardId = cardId`. -/
def patchId (c : Card) (cardId : Option String) : Card :=
  if truthyStr c.cardId = none ∧ truthyStr c.id = none then
    { c with cardId := cardId }
  else c

/-- Comparator step of the `createdAt` descending sort: `a` is strictly
more recent than `b`.  A missing/unparsable date makes the comparator
return `NaN`, which the sort treats as equal, hence `false` here. -/
def laterCreatedAt (a b : Card) : Bool :=
  match a.createdAt, b.createdAt with
  | some x, some y => decide (y < x)
  | _, _ => false

/-- The element at index 0 of the stable `createdAt`-descending sort: the
first card among those with maximal `createdAt`. -/
def pickMostRecent (first : Card) (rest : List Card) : Card :=
  rest.foldl (fun best c => if laterCreatedAt c best then c else best) first

/-- The card summary getHeroCard selects from the content list: filter by
the exact constant title, then take the most recent. -/
def selectHeroCard (data : MineResponse) : Option Card :=
  match (data.cards.getD []).filter
      (fun c => decide (c.title = some HERO_CARD_TITLE)) with
  | [] => none
  | first :: rest => some (pickMostRecent first rest)

/-- getHeroCard from library.ts (lines 253-338).  Any exception thrown
along the way is caught and converted to `null`; a non-2xx content list
throws (caught), while a non-2xx detail fetch falls back to the basic
summary card. -/
def getHeroCard (env : CardApiEnv) : Option Card :=
  match env.fetchContentMine with
  | .reject _ => none
  | .nonOk _ _ => none
  | .ok data =>
    match selectHeroCard data with
    | none => none
    | some mostRecentCard =>
      let cardId := jsOr mostRecentCard.cardId mostRecentCard.id
      match env.fetchContentDetail cardId with
      | .ok fullCardData => some (patchId (cardOrSelf fullCardData) cardId)
      | .nonOk _ _ => some (patchId mostRecentCard cardId)
      | .reject _ => none

/-- createHeroCard from library.ts (lines 382-452): post the create
payload; a non-2xx response throws `Failed to create card: ` ++ body,
which the local catch normalizes into the failure result. -/
def createHeroCard (env : CardApiEnv) (storyMetadata : StoryMetadata)
    (transcodedAudio : TranscodedAudio) : YotoUploadResult :=
  match env.postContent (createHeroCardPayload storyMetadata transcodedAudio) with
  | .reject e =>
    { success := false, cardId := none
      error := some (normalizeErrorMessage e "Failed to create Hero card")
      transcodeInfo := none }
  | .nonOk _ errorText =>
    { success := false, cardId := none
      error := some ("Failed to create card: " ++ errorText)
      transcodeInfo := none }
  | .ok result =>
    { success := true
      cardId := jsOr3 result.cardId result.cardCardId result.id
      error := none
      transcodeInfo := some transcodedAudio }

/-- The try-block of updateHeroCard (lines 457-590): resolve the full card
(re-fetching detail when the summary lacks `content.chapters`; a non-2xx
detail response silently keeps the summary), build the update payload, and
post it.  A non-2xx write throws `Failed to update card: ` ++ body. -/
def updateHeroCardInner (env : CardApiEnv) (existingCard : Card)
    (storyMetadata : StoryMetadata) (transcodedAudio : TranscodedAudio) :
    Except Thrown YotoUploadResult :=
  let fullCardStep : Except Thrown Card :=
    if (existingCard.content.bind (·.chapters)).isNone then
      match env.fetchContentDetail (jsOr existingCard.cardId existingCard.id) with
      | .reject e => .error e
      | .nonOk _ _ => .ok existingCard
      | .ok fullCardData => .ok (cardOrSelf fullCardData)
    else .ok existingCard
  match fullCardStep with
  | .error e => .error e
  | .ok fullCard =>
    let updatePayload := updateHeroCardPayload fullCard storyMetadata transcodedAudio
    match env.postContent updatePayload with
    | .reject e => .error e
    | .nonOk _ errorText => .error (.jsError ("Failed to update card: " ++ errorText))
    | .ok result =>
      .ok { success := true
            cardId := jsOr result.cardId result.id
            error := none
            transcodeInfo := some transcodedAudio }

/-- updateHeroCard from library.ts: the try-block wrapped in the catch that
converts any thrown value into the failure result with
`error instanceof Error ? error.message : "Unknown error"`. -/
def updateHeroCard (env : CardApiEnv) (existingCard : Card)
    (storyMetadata : StoryMetadata) (transcodedAudio : TranscodedAudio) :
    YotoUploadResult :=
  match updateHeroCardInner env existingCard storyMetadata transcodedAudio with
  | .ok r => r
  | .error e =>
    { success := false, cardId := none
      error := some (thrownMessageOrUnknown e)
      transcodeInfo := none }

/-! ## uploadAudioToYoto and the transcode poll loop -/

/-- The `upload` object of the upload-slot response. -/
structure UploadSlot where
  uploadUrl : Option String
  uploadId : Option String
deriving DecidableEq, Repr

/-- Parsed body of `GET /media/transcode/audio/uploadUrl`; destructuring
`{ upload: { uploadUrl, uploadId } }` throws when `upload` is absent. -/
structure UploadUrlResponse where
  upload : Option UploadSlot
deriving DecidableEq, Repr

/-- Parsed body of one transcode-status poll; reading
`data.transcode.transcodedSha256` throws when `transcode` is absent. -/
structure TranscodeStatusResponse where
  transcode : Option TranscodedAudio
deriving DecidableEq, Repr

/-- The V8 message of the `TypeError` raised by
`data.transcode.transcodedSha256` when `transcode` is `undefined`. -/
def transcodeUndefinedMsg : String :=
  "Cannot read properties of undefined (reading " ++ String.singleton apostrophe
    ++ "transcodedSha256" ++ String.singleton apostrophe ++ ")"

/-- The message of the `TypeError` raised by destructuring
`{ upload: { uploadUrl, uploadId } }` when `upload` is `undefined`. -/
def uploadUndefinedMsg : String :=
  "Cannot read properties of undefined (reading " ++ String.singleton apostrophe
    ++ "uploadUrl" ++ String.singleton apostrophe ++ ")"

/-- Behaviour of the endpoints used by uploadAudioToYoto.  `pollTranscode`
maps the poll index (the value of `attempts` when the poll is issued) to
that poll's outcome.  The PUT body is never parsed, so its 2xx body is
`Unit`. -/
structure UploadEnv where
  fetchUploadUrl : FetchResult UploadUrlResponse String
  putAudio : FetchResult Unit String
  pollTranscode : Nat → FetchResult TranscodeStatusResponse String

/-- Outcome of the poll `while` loop, recording the number of fetches
issued (`polls`) and the total `setTimeout` delay in milliseconds
(`sleepMs`).  `found` is the `break` with a non-empty hash, `timeout` is
loop exit with `attempts = maxAttempts`, `raised` is an exception escaping
the loop. -/
inductive PollOutcome where
  | found (t : TranscodedAudio) (polls : Nat) (sleepMs : Nat)
  | timeout (attempts : Nat) (polls : Nat) (sleepMs : Nat)
  | raised (e : Thrown) (polls : Nat) (sleepMs : Nat)
deriving DecidableEq, Repr

/-- The `while (attempts < maxAttempts)` loop of uploadAudioToYoto
(lines 194-225), in fuel form: `fuel = maxAttempts - attempts`.  A 2xx
response with a non-empty `transcodedSha256` breaks immediately (no sleep,
no increment); otherwise the loop sleeps 500ms and increments
`attempts`. -/
def pollAux (poll : Nat → FetchResult TranscodeStatusResponse String) :
    Nat → Nat → Nat → Nat → PollOutcome
  | attempts, 0, polls, sleepMs => .timeout attempts polls sleepMs
  | attempts, fuel + 1, polls, sleepMs =>
    match poll attempts with
    | .reject e => .raised e (polls + 1) sleepMs
    | .nonOk _ _ => pollAux poll (attempts + 1) fuel (polls + 1) (sleepMs + 500)
    | .ok data =>
      match data.transcode with
      | none => .raised (.jsError transcodeUndefinedMsg) (polls + 1) sleepMs
      | some t =>
        if t.transcodedSha256 ≠ "" then .found t (polls + 1) sleepMs
        else pollAux poll (attempts + 1) fuel (polls + 1) (sleepMs + 500)

/-- The `maxAttempts` constant of uploadAudioToYoto. -/
def maxAttempts : Nat := 60

/-- The try-block of uploadAudioToYoto (lines 139-235), also reporting the
number of poll fetches issued and the total poll delay: request the upload
slot, PUT the audio, then run the poll loop; loop exhaustion throws
`YotoAPIError` with the timeout message and a context carrying `uploadId`
and `attempts`. -/
def uploadAudioToYotoInner (env : UploadEnv) :
    Except Thrown TranscodedAudio × Nat × Nat :=
  match env.fetchUploadUrl with
  | .reject e => (.error e, 0, 0)
  | .nonOk status errorText =>
    (.error (mkYotoAPIError ("Failed to get upload URL: " ++ Nat.repr status)
      [("status", .num status), ("responseBody", .str errorText)]), 0, 0)
  | .ok body =>
    match body.upload with
    | none => (.error (.jsError uploadUndefinedMsg), 0, 0)
    | some slot =>
      match truthyStr slot.uploadUrl with
      | none => (.error (mkYotoAPIError "Upload URL not provided in response" []), 0, 0)
      | some _ =>
        match env.putAudio with
        | .reject e => (.error e, 0, 0)
        | .nonOk status _ =>
          (.error (mkYotoAPIError ("Audio upload failed: " ++ Nat.repr status) []), 0, 0)
        | .ok _ =>
          match pollAux env.pollTranscode 0 maxAttempts 0 0 with
          | .found t polls sleepMs => (.ok t, polls, sleepMs)
          | .timeout attempts polls sleepMs =>
            (.error (mkYotoAPIError "Transcoding timed out after 30 seconds"
              [("uploadId", ctxOfOptStr slot.uploadId), ("attempts", .num attempts)]),
             polls, sleepMs)
          | .raised e polls sleepMs => (.error e, polls, sleepMs)

/-- The result shape of uploadAudioToYoto. -/
structure UploadResult where
  success : Bool
  transcodedAudio : Option TranscodedAudio
  error : Option String
deriving DecidableEq, Repr

/-- uploadAudioToYoto from library.ts: the try-block wrapped in the catch
that normalizes the thrown value and returns the failure shape. -/
def uploadAudioToYoto (env : UploadEnv) : UploadResult :=
  match (uploadAudioToYotoInner env).1 with
  | .ok t => { success := true, transcodedAudio := some t, error := none }
  | .error e =>
    { success := false, transcodedAudio := none
      error := some (normalizeErrorMessage e "Audio upload to Yoto failed") }

/-! ## Token lifecycle (src/unnamed/part_002) -/

/-- Parsed body of a 2xx token-endpoint response, per the `TokenResponse`
interface. -/
structure TokenResponse where
  access_token : String
  refresh_token : String
  expires_in : Option Int
  token_type : String
deriving DecidableEq, Repr

/-- Non-2xx token-endpoint body after the `JSON.parse(errorText)` /
catch step: either an object with optional `error` and `error_description`
fields, or unparsable text (bodies whose JSON parses to a non-object are
not modelled). -/
inductive ErrBody where
  | parsed (error : Option String) (error_description : Option String)
  | unparsable (raw : String)
deriving DecidableEq, Repr

/-- The failure message built at lines 112-123 of part_002:
`Token exchange failed: ` ++ (`error.error || "Unknown error"`) ++ the
optional ` - ` ++ `error_description`. -/
def tokenExchangeFailMsg (b : ErrBody) : String :=
  let err := match b with
    | .parsed e _ => jsOrStr e "Unknown error"
    | .unparsable _ => "invalid_response"
  let desc := match b with
    | .parsed _ d => truthyStr d
    | .unparsable raw => truthyStr (some raw)
  "Token exchange failed: " ++ err ++
    (match desc with
     | some d => " - " ++ d
     | none => "")

/-- The credential-presentation method of a token-exchange attempt.  The
Basic header content (`base64(clientId:clientSecret)` or
`base64(clientId:)`) is abstracted to whether the secret was included. -/
inductive AuthMethod where
  | bodyCreds
  | basicWithSecret
  | basicNoSecret
deriving DecidableEq, Repr

/-- Which Basic variant the fallback uses, from the truthiness of
`process.env.YOTO_CLIENT_SECRET`. -/
def basicMethodOf (clientSecret : Option String) : AuthMethod :=
  match truthyStr clientSecret with
  | some _ => .basicWithSecret
  | none => .basicNoSecret

/-- Behaviour of the token endpoint for the two exchange attempts, plus
the configured client secret. -/
structure ExchangeEnv where
  clientSecret : Option String
  bodyMethodResponse : FetchResult TokenResponse ErrBody
  basicMethodResponse : FetchResult TokenResponse ErrBody

/-- exchangeCodeForTokens from part_002 (lines 46-129), also reporting the
ordered list of attempted credential-presentation methods: try the
body-credential POST; on a 401 make exactly one more attempt with Basic
credentials; a remaining non-2xx throws a plain `Error` with the message
built from the upstream error code and description. -/
def exchangeCodeForTokens (env : ExchangeEnv) :
    Except Thrown TokenResponse × List AuthMethod :=
  match env.bodyMethodResponse with
  | .ok tokens => (.ok tokens, [.bodyCreds])
  | .reject e => (.error e, [.bodyCreds])
  | .nonOk status b =>
    if status = 401 then
      let attempts := [AuthMethod.bodyCreds, basicMethodOf env.clientSecret]
      match env.basicMethodResponse with
      | .ok tokens => (.ok tokens, attempts)
      | .reject e => (.error e, attempts)
      | .nonOk _ b2 => (.error (.jsError (tokenExchangeFailMsg b2)), attempts)
    else
      (.error (.jsError (tokenExchangeFailMsg b)), [.bodyCreds])

/-- refreshAccessToken from part_002 (lines 131-167): a non-2xx response
throws `AuthenticationError` with `Token refresh failed: ` ++ the upstream
error code. -/
def refreshAccessToken (response : FetchResult TokenResponse ErrBody) :
    Except Thrown TokenResponse :=
  match response with
  | .ok tokens => .ok tokens
  | .reject e => .error e
  | .nonOk _ b =>
    let err := match b with
      | .parsed e _ => jsOrStr e "Unknown error"
      | .unparsable _ => "invalid_response"
    .error (.authenticationError ("Token refresh failed: " ++ err))

/-- A decoded JWT payload; `exp` may be missing at runtime even though the
TypeScript interface declares it. -/
structure JWTPayload where
  exp : Option Int
deriving DecidableEq, Repr

/-- isTokenExpired from part_002 (lines 172-186), over the decode outcome
(`none` when `jwtDecode` throws) and the current time in milliseconds:
undecodable tokens are expired (fail-closed); otherwise the token is
expired when `exp * 1000 <= now + 5 * 60 * 1000`.  A payload without `exp`
makes the JS comparison `NaN <= x`, which is `false`. -/
def isTokenExpired (decoded : Option JWTPayload) (now : Int) : Bool :=
  match decoded with
  | none => true
  | some payload =>
    match payload.exp with
    | none => false
    | some exp => decide (exp * 1000 ≤ now + 5 * 60 * 1000)

/-- The stored token-data object passed to ensureValidToken (untyped in
the source, so both fields optional). -/
structure TokenData where
  access_token : Option String
  refresh_token : Option String
deriving DecidableEq, Repr

/-- Environment of ensureValidToken: the `jwtDecode` behaviour, the
current time, the configured client id, and the refresh endpoint
behaviour. -/
structure EnsureEnv where
  decode : String → Option JWTPayload
  now : Int
  clientId : Option String
  refreshResponse : FetchResult TokenResponse ErrBody

/-- ensureValidToken from part_002 (lines 191-229), also reporting whether
a refresh request was issued: fail when there is no access token; return
the current token when not expired; otherwise require a refresh token and
a configured client id, run the refresh, and map any refresh failure to a
fresh `AuthenticationError`. -/
def ensureValidToken (env : EnsureEnv) (tokenData : Option TokenData) :
    Except Thrown String × Bool :=
  match truthyStr (tokenData.bind (·.access_token)) with
  | none => (.error (.authenticationError "No access token available"), false)
  | some accessToken =>
    if !isTokenExpired (env.decode accessToken) env.now then
      (.ok accessToken, false)
    else
      match truthyStr (tokenData.bind (·.refresh_token)) with
      | none =>
        (.error (.authenticationError "Token expired and no refresh token available"),
         false)
      | some _ =>
        match truthyStr env.clientId with
        | none => (.error (.configurationError "YOTO_CLIENT_ID not configured"), false)
        | some _ =>
          match refreshAccessToken env.refreshResponse with
          | .ok refreshedTokens => (.ok refreshedTokens.access_token, true)
          | .error _ =>
            (.error (.authenticationError
              "Token refresh failed - please re-authenticate"), true)

/-! ## uploadStoryToYoto (workflow orchestrator) -/

/-- The `TTSResult` shape returned by generateAudio; the audio buffer is
represented by its byte length (`none` for an absent buffer, which is the
only falsy case since an `ArrayBuffer` object is truthy). -/
structure TTSResult where
  success : Bool
  audioBuffer : Option Nat
  error : Option String
deriving DecidableEq, Repr

/-- Environment of uploadStoryToYoto.  `md5Hex` is the crypto digest used
for the cache key; `cacheGet` is the development transcode cache read
(total: its internal catch turns every read failure into a miss, and the
write-through `cacheTranscode` swallows its own failures and affects no
result, so it is omitted); `importTts`, `getRandomVoiceId` and
`generateAudio` model the dynamic import and the TTS collaborator, allowed
to throw to cover every collaborator behaviour; the remaining fields are
the fetch behaviours consumed by the embedded library functions. -/
structure OrchestratorEnv where
  md5Hex : String → String
  cacheGet : String → Option TranscodedAudio
  importTts : Except Thrown Unit
  getRandomVoiceId : Except Thrown (Option String)
  generateAudio : String → String → Except Thrown TTSResult
  uploadEnv : UploadEnv
  cardApi : CardApiEnv

/-- Converting an early-returned `uploadResult` failure into the outer
result shape (the JS code returns the same object; its fields line up). -/
def uploadFailureResult (u : UploadResult) : YotoUploadResult :=
  { success := false, cardId := none, error := u.error, transcodeInfo := none }

/-- Step 3 of uploadStoryToYoto: look up the card and dispatch to update
or create. -/
def syncCardStep (env : OrchestratorEnv) (storyMetadata : StoryMetadata)
    (transcodedAudio : TranscodedAudio) : YotoUploadResult :=
  match getHeroCard env.cardApi with
  | some existingCard => updateHeroCard env.cardApi existingCard storyMetadata transcodedAudio
  | none => createHeroCard env.cardApi storyMetadata transcodedAudio

/-- The try-block of uploadStoryToYoto (lines 610-658): cache lookup; on a
miss import the TTS module, pick a voice, synthesize, upload and
transcode; then the card sync step.  Early `return` statements are the
`.ok` results carrying a failure shape.  In the branch where the uploader
reports success without a transcode object the JS code would fail later
inside the card write with a caught `TypeError`; that branch is
unreachable for the embedded uploader (see
`uploadAudioToYoto_success_audio`). -/
def uploadStoryToYotoInner (env : OrchestratorEnv) (storyText : String)
    (storyMetadata : StoryMetadata) : Except Thrown YotoUploadResult :=
  let cacheKey := env.md5Hex storyText.trim
  match env.cacheGet cacheKey with
  | some transcodedAudio => .ok (syncCardStep env storyMetadata transcodedAudio)
  | none =>
    match env.importTts with
    | .error e => .error e
    | .ok _ =>
      match env.getRandomVoiceId with
      | .error e => .error e
      | .ok voiceId? =>
        match truthyStr voiceId? with
        | none =>
          .ok { success := false, cardId := none
                error := some "No voices configured for audio generation"
                transcodeInfo := none }
        | some voiceId =>
          match env.generateAudio storyText voiceId with
          | .error e => .error e
          | .ok audioResult =>
            if !audioResult.success || audioResult.audioBuffer.isNone then
              .ok { success := false, cardId := none
                    error := some (jsOrStr audioResult.error "Audio generation failed")
                    transcodeInfo := none }
            else
              let uploadResult := uploadAudioToYoto env.uploadEnv
              if !uploadResult.success then
                .ok (uploadFailureResult uploadResult)
              else
                match uploadResult.transcodedAudio with
                | some transcodedAudio =>
                  .ok (syncCardStep env storyMetadata transcodedAudio)
                | none =>
                  .ok { success := false, cardId := none
                        error := some "Unknown error", transcodeInfo := none }

/-- uploadStoryToYoto from library.ts (lines 605-671): the try-block
wrapped in the catch that normalizes any thrown value into the uniform
failure shape. -/
def uploadStoryToYoto (env : OrchestratorEnv) (storyText : String)
    (storyMetadata : StoryMetadata) : YotoUploadResult :=
  match uploadStoryToYotoInner env storyText storyMetadata with
  | .ok r => r
  | .error e =>
    { success := false, cardId := none
      error := some (normalizeErrorMessage e "uploadStoryToYoto failed")
      transcodeInfo := none }

/-! ## Spec-side definitions (from the words of the specification) -/

/-- Modelled from the spec: the aggregate duration as the spec defines it,
the sum of the track durations over ALL chapters in the written list. -/
def specAggregateDuration (chapters : List Chapter) : Nat :=
  (chapters.map (fun ch => ((ch.tracks.getD []).map (fun tr => tr.duration.getD 0)).sum)).sum

/-- Modelled from the spec: the aggregate file size as the spec defines
it, the sum of the track file sizes over ALL chapters in the written
list. -/
def specAggregateFileSize (chapters : List Chapter) : Nat :=
  (chapters.map (fun ch => ((ch.tracks.getD []).map (fun tr => tr.fileSize.getD 0)).sum)).sum

/-- Modelled from the spec: the contiguous zero-padded key sequence
`01..n` that the spec requires of an n-chapter write. -/
def specContiguousKeys (n : Nat) : List (Option String) :=
  (List.range n).map (fun i => some (padStart2 (i + 1)))

/-! ## Concrete fixtures for counterexamples and witnesses -/

/-- A fixed story metadata value. -/
def storyMetaX : StoryMetadata :=
  { childName := "Ada", adventureType := "space", specialSkill := "coding"
    title := some "Moon Trip" }

/-- A fixed new transcode result: duration 50, file size 500. -/
def transcodedX : TranscodedAudio :=
  { transcodedSha256 := "sha-new"
    transcodedInfo := some
      { duration := some 50, fileSize := some 500
        channels := some "stereo", format := some "mp3" } }

/-- A remote chapter whose single track has duration 100 and file size
1000, keyed `01`. -/
def remoteCh01 : RemoteChapter :=
  { key := some "01", title := some "First", overlayLabel := some "1"
    tracks := some [
      { key := some "01", title := some "First"
        trackUrl := some "yoto:#sha-old", duration := some 100
        fileSize := some 1000, channels := some "stereo"
        format := some "mp3", type := some "audio"
        overlayLabel := some "1" }] }

/-- Like `remoteCh01` but keyed `05` (a remote card with a key gap). -/
def remoteCh05 : RemoteChapter := { remoteCh01 with key := some "05" }

/-- A second remote chapter keyed `02` with duration 30 and size 300. -/
def remoteCh02 : RemoteChapter :=
  { key := some "02", title := some "Second", overlayLabel := some "2"
    tracks := some [
      { key := some "01", title := some "Second"
        trackUrl := some "yoto:#sha-two", duration := some 30
        fileSize := some 300, channels := some "stereo"
        format := some "mp3", type := some "audio"
        overlayLabel := some "1" }] }

/-- An existing card holding `remoteCh01` whose stored aggregate metadata
is absent (read as 0 by the `|| 0` in updateHeroCard), so the stored
aggregate disagrees with the chapter contents. -/
def cardStale : Card :=
  { cardId := some "card-1", id := none, title := some HERO_CARD_TITLE
    createdAt := some 1, content := some { chapters := some [remoteCh01] }
    metadataMediaDuration := none, metadataMediaFileSize := none }

/-- An existing card whose single chapter is keyed `05`. -/
def cardGap : Card := { cardStale with content := some { chapters := some [remoteCh05] } }

/-- An existing card with two chapters (an update writes three). -/
def cardTwoCh : Card :=
  { cardStale with content := some { chapters := some [remoteCh01, remoteCh02] } }

/-- A card API whose write always succeeds. -/
def cardEnvOkWrite : CardApiEnv :=
  { fetchContentMine := .nonOk 500 "unused"
    fetchContentDetail := fun _ => .nonOk 500 "unused"
    postContent := fun _ => .ok { cardId := some "card-1", cardCardId := none, id := none } }

/-- A card API whose write always fails with status 500 and body
`server rejected`. -/
def cardEnvPostFail : CardApiEnv :=
  { fetchContentMine := .nonOk 500 "unused"
    fetchContentDetail := fun _ => .nonOk 500 "unused"
    postContent := fun _ => .nonOk 500 "server rejected" }

/-- A hero-titled card summary without chapter bodies. -/
def heroSummary : Card :=
  { cardId := some "c1", id := none, title := some HERO_CARD_TITLE
    createdAt := some 5, content := none
    metadataMediaDuration := none, metadataMediaFileSize := none }

/-- A card API where the content list returns the summary but the detail
fetch answers 500. -/
def cardEnvDetail500 : CardApiEnv :=
  { fetchContentMine := .ok { cards := some [heroSummary] }
    fetchContentDetail := fun _ => .nonOk 500 "boom"
    postContent := fun _ => .nonOk 500 "unused" }

/-! ## C1 -/

/-- C1: the claim says every card write sends an aggregate equal to the
sum of durations/sizes over all chapters' tracks, recomputed from the full
merged chapter list.  The code instead adds the new transcode's values to
the previously stored aggregate (`existingDuration + mediaInfo?.duration`,
lines 522-525 of library.ts), directly below the comment saying the
metadata is calculated from ALL chapters.  On `cardStale` (stored
aggregate absent, chapter track 100/1000, new track 50/500) the update
payload carries 50/500 while the sum over all written chapters is
150/1500. -/
theorem updateHeroCard_aggregate_is_delta_not_sum :
    (updateHeroCardPayload cardStale storyMetaX transcodedX).mediaDuration = some 50 ∧
    (updateHeroCardPayload cardStale storyMetaX transcodedX).mediaFileSize = some 500 ∧
    specAggregateDuration (updateHeroCardPayload cardStale storyMetaX transcodedX).chapters = 150 ∧
    specAggregateFileSize (updateHeroCardPayload cardStale storyMetaX transcodedX).chapters = 1500 ∧
    (updateHeroCardPayload cardStale storyMetaX transcodedX).mediaDuration ≠
      some (specAggregateDuration (updateHeroCardPayload cardStale storyMetaX transcodedX).chapters) := by
  decide

/-! ## C2 -/

/-- C2 counterexample: on an existing card whose single chapter is keyed
`05`, a successful update writes chapters keyed `05`, `02`; the keys are
neither regenerated nor contiguous ascending from `01`, refuting the claim
as stated. -/
theorem updateHeroCard_keys_not_regenerated :
    (updateHeroCard cardEnvOkWrite cardGap storyMetaX transcodedX).success = true ∧
    (updateHeroCardPayload cardGap storyMetaX transcodedX).chapters.map (·.key) =
      [some "05", some "02"] ∧
    (updateHeroCardPayload cardGap storyMetaX transcodedX).chapters.map (·.key) ≠
      specContiguousKeys 2 := by
  decide

theorem specContiguousKeys_succ (n : Nat) :
    specContiguousKeys (n + 1) = specContiguousKeys n ++ [some (padStart2 (n + 1))] := by
  simp [specContiguousKeys, List.range_succ]

/-- C2 amended: an update write contains exactly N+1 chapters; the
appended chapter is keyed with N+1 zero-padded to two digits, while the
existing chapters keep their remote keys verbatim; hence the written keys
are the contiguous sequence 01..N+1 exactly when the remote keys were
already the contiguous sequence 01..N (they are preserved, not
regenerated). -/
theorem updateHeroCard_chapter_keys (fullCard : Card) (m : StoryMetadata)
    (t : TranscodedAudio) :
    (updateHeroCardPayload fullCard m t).chapters.length =
      ((fullCard.content.bind (·.chapters)).getD []).length + 1 ∧
    (updateHeroCardPayload fullCard m t).chapters.map (·.key) =
      ((fullCard.content.bind (·.chapters)).getD []).map (·.key) ++
        [some (padStart2 (((fullCard.content.bind (·.chapters)).getD []).length + 1))] ∧
    (((fullCard.content.bind (·.chapters)).getD []).map (·.key) =
        specContiguousKeys ((fullCard.content.bind (·.chapters)).getD []).length →
      (updateHeroCardPayload fullCard m t).chapters.map (·.key) =
        specContiguousKeys (((fullCard.content.bind (·.chapters)).getD []).length + 1)) := by
  refine ⟨?_, ?_, ?_⟩
  · simp [updateHeroCardPayload]
  · simp [updateHeroCardPayload, cleanChapter, createChapterFromStory]
  · intro h
    rw [specContiguousKeys_succ]
    rw [← h]
    simp [updateHeroCardPayload, cleanChapter, createChapterFromStory]

/-- C2 witness: on a card whose single chapter is keyed `01`, the update
write carries the contiguous keys `01`, `02`. -/
theorem updateHeroCard_chapter_keys_witness :
    (updateHeroCardPayload cardStale storyMetaX transcodedX).chapters.map (·.key) =
      specContiguousKeys 2 :=
  (updateHeroCard_chapter_keys cardStale storyMetaX transcodedX).2.2 (by decide)

/-! ## C3 -/

/-- C3 counterexample: on a two-chapter card (three chapters would be
written), a rejected write yields the failure message
`Failed to update card: server rejected`, which does not contain the
chapter count 3 (it contains no digit at all), refuting the claim that
the failure includes the number of chapters. -/
theorem updateHeroCard_failure_lacks_chapter_count :
    (updateHeroCardPayload cardTwoCh storyMetaX transcodedX).chapters.length = 3 ∧
    (updateHeroCard cardEnvPostFail cardTwoCh storyMetaX transcodedX).error =
      some "Failed to update card: server rejected" ∧
    ("Failed to update card: server rejected".data.contains '3') = false := by
  decide

/-- C3 amended: when the card update write returns a non-2xx status,
updateHeroCard fails, with an error message equal to
`Failed to update card: ` followed by the upstream response body; the
number of chapters that would have been written appears only in debug
logging, not in the failure content. -/
theorem updateHeroCard_write_failure (env : CardApiEnv) (existingCard : Card)
    (m : StoryMetadata) (t : TranscodedAudio) (status : Nat) (errorText : String)
    (hch : (existingCard.content.bind (·.chapters)).isNone = false)
    (hpost : env.postContent (updateHeroCardPayload existingCard m t) =
      .nonOk status errorText) :
    updateHeroCard env existingCard m t =
      { success := false, cardId := none
        error := some ("Failed to update card: " ++ errorText)
        transcodeInfo := none } := by
  unfold updateHeroCard updateHeroCardInner
  simp [hch, hpost, thrownMessageOrUnknown, thrownMessage]

/-- C3 witness: the amended theorem applied to `cardStale` and the
constantly failing write environment. -/
theorem updateHeroCard_write_failure_witness :
    updateHeroCard cardEnvPostFail cardStale storyMetaX transcodedX =
      { success := false, cardId := none
        error := some ("Failed to update card: " ++ "server rejected")
        transcodeInfo := none } :=
  updateHeroCard_write_failure cardEnvPostFail cardStale storyMetaX transcodedX
    500 "server rejected" (by decide) rfl

/-! ## C4 -/

/-- C4 counterexample: when the content list succeeds and only the
full-detail fetch of the selected card fails (here with status 500),
getHeroCard returns the basic summary card rather than null, refuting the
claim that every failure along the lookup path yields null. -/
theorem getHeroCard_detail_failure_not_null :
    getHeroCard cardEnvDetail500 = some heroSummary ∧
    getHeroCard cardEnvDetail500 ≠ none := by
  decide

/-- C4 amended: getHeroCard returns null when the content-list request is
rejected, returns a non-2xx status, or the detail fetch is rejected (a
thrown error anywhere is caught and converted to null); but when only the
full-detail fetch of the selected card returns a non-2xx status, it falls
back to returning the basic summary card (with its id patched) instead of
null. -/
theorem getHeroCard_failure_paths (env : CardApiEnv) :
    (∀ e, env.fetchContentMine = .reject e → getHeroCard env = none) ∧
    (∀ status text, env.fetchContentMine = .nonOk status text → getHeroCard env = none) ∧
    (∀ data sel, env.fetchContentMine = .ok data → selectHeroCard data = some sel →
      ((∀ e, env.fetchContentDetail (jsOr sel.cardId sel.id) = .reject e →
          getHeroCard env = none) ∧
       (∀ status text,
          env.fetchContentDetail (jsOr sel.cardId sel.id) = .nonOk status text →
          getHeroCard env = some (patchId sel (jsOr sel.cardId sel.id))))) := by
  refine ⟨fun e he => ?_, fun status text hnf => ?_, fun data sel hok hsel => ⟨fun e he => ?_, fun status text hd => ?_⟩⟩
  · unfold getHeroCard
    rw [he]
  · unfold getHeroCard
    rw [hnf]
  · unfold getHeroCard
    rw [hok]
    dsimp only
    rw [hsel]
    dsimp only
    rw [he]
  · unfold getHeroCard
    rw [hok]
    dsimp only
    rw [hsel]
    dsimp only
    rw [hd]

/-- C4 witness: the amended theorem applied to the environment whose
detail fetch fails with status 500. -/
theorem getHeroCard_failure_paths_witness :
    getHeroCard cardEnvDetail500 =
      some (patchId heroSummary (jsOr heroSummary.cardId heroSummary.id)) :=
  ((getHeroCard_failure_paths cardEnvDetail500).2.2
    { cards := some [heroSummary] } heroSummary rfl (by decide)).2 500 "boom" rfl

/-! ## C5 -/

/-- C5: when the body-credential token exchange answers 401, exactly one
further attempt is made, using Basic credential presentation (with or
without the configured client secret); if that attempt also returns a
non-2xx, the function fails with an error whose message carries the
upstream error code and description (`Token exchange failed: code - description`);
a 2xx on the fallback succeeds. -/
theorem exchangeCodeForTokens_basic_fallback (env : ExchangeEnv) (b1 : ErrBody)
    (h1 : env.bodyMethodResponse = .nonOk 401 b1) :
    (exchangeCodeForTokens env).2 = [.bodyCreds, basicMethodOf env.clientSecret] ∧
    (∀ status2 b2, env.basicMethodResponse = .nonOk status2 b2 →
      (exchangeCodeForTokens env).1 = .error (.jsError (tokenExchangeFailMsg b2))) ∧
    (∀ status2 c d, c ≠ "" → d ≠ "" →
      env.basicMethodResponse = .nonOk status2 (.parsed (some c) (some d)) →
      (exchangeCodeForTokens env).1 =
        .error (.jsError ("Token exchange failed: " ++ c ++ (" - " ++ d)))) ∧
    (∀ tokens, env.basicMethodResponse = .ok tokens →
      (exchangeCodeForTokens env).1 = .ok tokens) := by
  refine ⟨?_, fun status2 b2 h2 => ?_, fun status2 c d hc hd h2 => ?_, fun tokens h2 => ?_⟩
  · unfold exchangeCodeForTokens
    rw [h1]
    dsimp only
    rw [if_pos rfl]
    cases env.basicMethodResponse <;> rfl
  · unfold exchangeCodeForTokens
    rw [h1]
    dsimp only
    rw [if_pos rfl, h2]
  · unfold exchangeCodeForTokens
    rw [h1]
    dsimp only
    rw [if_pos rfl, h2]
    dsimp only [tokenExchangeFailMsg, jsOrStr, truthyStr]
    rw [if_neg hc, if_neg hd]
  · unfold exchangeCodeForTokens
    rw [h1]
    dsimp only
    rw [if_pos rfl, h2]

/-- A token endpoint that refuses both methods with 401 and a parsed
error body. -/
def exchangeEnvW : ExchangeEnv :=
  { clientSecret := none
    bodyMethodResponse := .nonOk 401 (.parsed (some "invalid_client") (some "bad credentials"))
    basicMethodResponse := .nonOk 401 (.parsed (some "invalid_client") (some "bad credentials")) }

/-- C5 witness: on the concrete doubly-401 environment, both methods are
attempted in order (body then Basic without secret) and the failure
carries the upstream code and description. -/
theorem exchangeCodeForTokens_basic_fallback_witness :
    (exchangeCodeForTokens exchangeEnvW).2 = [.bodyCreds, .basicNoSecret] ∧
    (exchangeCodeForTokens exchangeEnvW).1 =
      .error (.jsError "Token exchange failed: invalid_client - bad credentials") := by
  have h := exchangeCodeForTokens_basic_fallback exchangeEnvW
    (.parsed (some "invalid_client") (some "bad credentials")) rfl
  exact ⟨h.1, h.2.2.1 401 "invalid_client" "bad credentials"
    (by decide) (by decide) rfl⟩

/-! ## C7 -/

/-- C7: with the decoded expiry `exp` (seconds, compared in milliseconds
as the code does) and the current time `now` in milliseconds, the token is
reported expired exactly when `now` plus the five-minute margin reaches
the expiry instant, and an undecodable token is always reported expired
(fail-closed). -/
theorem isTokenExpired_spec (exp now : Int) :
    (now + 5 * 60 * 1000 ≥ exp * 1000 →
      isTokenExpired (some { exp := some exp }) now = true) ∧
    (now + 5 * 60 * 1000 < exp * 1000 →
      isTokenExpired (some { exp := some exp }) now = false) ∧
    isTokenExpired none now = true := by
  refine ⟨fun h => ?_, fun h => ?_, rfl⟩
  · simp only [isTokenExpired, decide_eq_true_eq]
    omega
  · simp only [isTokenExpired, decide_eq_false_iff_not]
    omega

/-- C7 witness: a token expiring at second 1000 is expired at 700000ms
(the margin reaches it exactly), a token expiring at second 1000000 is not
expired at time 0, and an undecodable token is expired. -/
theorem isTokenExpired_spec_witness :
    isTokenExpired (some { exp := some 1000 }) 700000 = true ∧
    isTokenExpired (some { exp := some 1000000 }) 0 = false ∧
    isTokenExpired none 0 = true := by
  refine ⟨?_, ?_, ?_⟩
  · exact (isTokenExpired_spec 1000 700000).1 (by decide)
  · exact (isTokenExpired_spec 1000000 0).2.1 (by decide)
  · exact (isTokenExpired_spec 7 0).2.2

/-! ## C8 -/

/-- C8: when the stored access token is truthy and not expired,
ensureValidToken returns it with no refresh request issued; when it is
expired and no refresh token is stored, it fails with the
`AuthenticationError` and still issues no refresh request. -/
theorem ensureValidToken_spec (env : EnsureEnv) (td : TokenData) (accessToken : String)
    (hat : truthyStr td.access_token = some accessToken) :
    (isTokenExpired (env.decode accessToken) env.now = false →
      ensureValidToken env (some td) = (.ok accessToken, false)) ∧
    (isTokenExpired (env.decode accessToken) env.now = true →
      truthyStr td.refresh_token = none →
      ensureValidToken env (some td) =
        (.error (.authenticationError "Token expired and no refresh token available"),
         false)) := by
  constructor
  · intro hexp
    unfold ensureValidToken
    simp only [Option.some_bind, hat, hexp]
    rfl
  · intro hexp hrt
    unfold ensureValidToken
    simp only [Option.some_bind, hat, hexp, hrt]
    rfl

/-- An ensure environment whose decoder reports a far-future expiry. -/
def ensureEnvFresh : EnsureEnv :=
  { decode := fun _ => some { exp := some 1000000000 }, now := 0
    clientId := some "cid", refreshResponse := .reject .nonError }

/-- An ensure environment whose decoder always fails. -/
def ensureEnvStale : EnsureEnv :=
  { decode := fun _ => none, now := 0
    clientId := some "cid", refreshResponse := .reject .nonError }

/-- C8 witness: a fresh token is returned unchanged without refreshing,
and an expired token without a refresh token fails without refreshing. -/
theorem ensureValidToken_spec_witness :
    ensureValidToken ensureEnvFresh
        (some { access_token := some "tokA", refresh_token := some "r" }) =
      (.ok "tokA", false) ∧
    ensureValidToken ensureEnvStale
        (some { access_token := some "tokB", refresh_token := none }) =
      (.error (.authenticationError "Token expired and no refresh token available"),
       false) := by
  constructor
  · exact (ensureValidToken_spec ensureEnvFresh
      { access_token := some "tokA", refresh_token := some "r" } "tokA"
      (by decide)).1 (by decide)
  · exact (ensureValidToken_spec ensureEnvStale
      { access_token := some "tokB", refresh_token := none } "tokB"
      (by decide)).2 rfl rfl

/-! ## C10 -/

/-- C10: whenever the stored token data lacks a truthy access token (the
object is absent, the field is missing, or it is empty), ensureValidToken
fails with the `AuthenticationError` immediately, independently of the
decoder, clock, configuration and refresh endpoint, and with no refresh
request issued. -/
theorem ensureValidToken_no_access_token (env : EnsureEnv) (tokenData : Option TokenData)
    (h : truthyStr (tokenData.bind (·.access_token)) = none) :
    ensureValidToken env tokenData =
      (.error (.authenticationError "No access token available"), false) := by
  unfold ensureValidToken
  rw [h]

/-- C10 witness: an empty access token fails immediately under an
environment whose refresh endpoint would succeed. -/
theorem ensureValidToken_no_access_token_witness :
    ensureValidToken ensureEnvFresh
        (some { access_token := some "", refresh_token := some "r" }) =
      (.error (.authenticationError "No access token available"), false) :=
  ensureValidToken_no_access_token ensureEnvFresh
    (some { access_token := some "", refresh_token := some "r" }) (by decide)

/-! ## C6 -/

/-- A poll response that completes transcoding: a 2xx body whose
`transcode.transcodedSha256` is non-empty; returns the transcode object. -/
def pollFound : FetchResult TranscodeStatusResponse String → Option TranscodedAudio
  | .ok data =>
    match data.transcode with
    | some t => if t.transcodedSha256 ≠ "" then some t else none
    | none => none
  | _ => none

/-- A poll response that makes the loop continue (sleep and retry): a
non-2xx response, or a 2xx body whose hash is empty.  A rejected fetch or
a body without `transcode` instead raises out of the loop. -/
def pollContinues : FetchResult TranscodeStatusResponse String → Bool
  | .nonOk _ _ => true
  | .ok data =>
    match data.transcode with
    | some t => t.transcodedSha256 == ""
    | none => false
  | .reject _ => false

/-- The number of poll fetches recorded in a loop outcome. -/
def pollCount : PollOutcome → Nat
  | .found _ polls _ => polls
  | .timeout _ polls _ => polls
  | .raised _ polls _ => polls

theorem pollAux_count_le (poll : Nat → FetchResult TranscodeStatusResponse String)
    (fuel : Nat) :
    ∀ attempts polls sleepMs,
      pollCount (pollAux poll attempts fuel polls sleepMs) ≤ polls + fuel := by
  induction fuel with
  | zero => intro attempts polls sleepMs; simp [pollAux, pollCount]
  | succ n ih =>
    intro attempts polls sleepMs
    unfold pollAux
    cases h : poll attempts with
    | reject e => simp [pollCount]
    | nonOk status text =>
      have := ih (attempts + 1) (polls + 1) (sleepMs + 500)
      dsimp only
      omega
    | ok data =>
      dsimp only
      cases hd : data.transcode with
      | none => simp [pollCount]
      | some t =>
        dsimp only
        by_cases hs : t.transcodedSha256 ≠ ""
        · rw [if_pos hs]
          simp [pollCount]
        · rw [if_neg hs]
          have := ih (attempts + 1) (polls + 1) (sleepMs + 500)
          omega

theorem pollAux_found_at (poll : Nat → FetchResult TranscodeStatusResponse String)
    (fuel : Nat) :
    ∀ i attempts polls sleepMs t, i < fuel →
      pollFound (poll (attempts + i)) = some t →
      (∀ j, j < i → pollContinues (poll (attempts + j)) = true) →
      pollAux poll attempts fuel polls sleepMs =
        .found t (polls + i + 1) (sleepMs + 500 * i) := by
  induction fuel with
  | zero => intro i _ _ _ _ hi; omega
  | succ n ih =>
    intro i attempts polls sleepMs t hi hf hc
    cases i with
    | zero =>
      rw [Nat.add_zero] at hf
      unfold pollAux
      cases h : poll attempts with
      | reject e => rw [h] at hf; simp [pollFound] at hf
      | nonOk status text => rw [h] at hf; simp [pollFound] at hf
      | ok data =>
        rw [h] at hf
        simp only [pollFound] at hf
        cases hd : data.transcode with
        | none => rw [hd] at hf; simp at hf
        | some u =>
          rw [hd] at hf
          dsimp only at hf
          dsimp only
          rw [hd]
          dsimp only
          by_cases hs : u.transcodedSha256 ≠ ""
          · rw [if_pos hs] at hf
            rw [if_pos hs]
            simp only [Option.some.injEq] at hf
            rw [hf]
            simp
          · rw [if_neg hs] at hf
            simp at hf
    | succ i' =>
      have hc0 := hc 0 (Nat.succ_pos i')
      rw [Nat.add_zero] at hc0
      have hf' : pollFound (poll ((attempts + 1) + i')) = some t := by
        rw [show (attempts + 1) + i' = attempts + (i' + 1) from by omega]
        exact hf
      have hc' : ∀ j, j < i' → pollContinues (poll ((attempts + 1) + j)) = true := by
        intro j hj
        rw [show (attempts + 1) + j = attempts + (j + 1) from by omega]
        exact hc (j + 1) (by omega)
      have ihres := ih i' (attempts + 1) (polls + 1) (sleepMs + 500) t (by omega) hf' hc'
      unfold pollAux
      cases h : poll attempts with
      | reject e => rw [h] at hc0; simp [pollContinues] at hc0
      | nonOk status text =>
        dsimp only
        rw [ihres]
        simp only [PollOutcome.found.injEq, eq_self_iff_true, true_and]
        constructor <;> omega
      | ok data =>
        rw [h] at hc0
        simp only [pollContinues] at hc0
        cases hd : data.transcode with
        | none => rw [hd] at hc0; simp at hc0
        | some u =>
          rw [hd] at hc0
          dsimp only at hc0
          simp only [beq_iff_eq] at hc0
          dsimp only
          rw [hd]
          dsimp only
          rw [if_neg (by simp [hc0])]
          rw [ihres]
          simp only [PollOutcome.found.injEq, eq_self_iff_true, true_and]
          constructor <;> omega

theorem pollAux_timeout_all (poll : Nat → FetchResult TranscodeStatusResponse String)
    (fuel : Nat) :
    ∀ attempts polls sleepMs,
      (∀ i, i < fuel → pollContinues (poll (attempts + i)) = true) →
      pollAux poll attempts fuel polls sleepMs =
        .timeout (attempts + fuel) (polls + fuel) (sleepMs + 500 * fuel) := by
  induction fuel with
  | zero => intro attempts polls sleepMs _; simp [pollAux]
  | succ n ih =>
    intro attempts polls sleepMs hc
    have hc0 := hc 0 (Nat.succ_pos n)
    rw [Nat.add_zero] at hc0
    have hc' : ∀ i, i < n → pollContinues (poll ((attempts + 1) + i)) = true := by
      intro i hi
      rw [show (attempts + 1) + i = attempts + (i + 1) from by omega]
      exact hc (i + 1) (by omega)
    have ihres := ih (attempts + 1) (polls + 1) (sleepMs + 500) hc'
    unfold pollAux
    cases h : poll attempts with
    | reject e => rw [h] at hc0; simp [pollContinues] at hc0
    | nonOk status text =>
      dsimp only
      rw [ihres]
      simp only [PollOutcome.timeout.injEq]
      refine ⟨by omega, by omega, by omega⟩
    | ok data =>
      rw [h] at hc0
      simp only [pollContinues] at hc0
      cases hd : data.transcode with
      | none => rw [hd] at hc0; simp at hc0
      | some u =>
        rw [hd] at hc0
        dsimp only at hc0
        simp only [beq_iff_eq] at hc0
        dsimp only
        rw [hd]
        dsimp only
        rw [if_neg (by simp [hc0])]
        rw [ihres]
        simp only [PollOutcome.timeout.injEq]
        refine ⟨by omega, by omega, by omega⟩

/-- C6: once the upload slot and the binary PUT have succeeded, the poll
loop issues at most 60 fetches; if poll `i` (with every earlier poll a
plain retry) is the first with a 2xx body carrying a non-empty hash, the
function returns that transcode result immediately, after `i + 1` polls and
`500 * i` milliseconds of sleeping (no sleep after the hit); and if all 60
polls are plain retries, it fails with the timeout `YotoAPIError` whose
context carries the upload id and the attempt count 60, after exactly 60
polls and 30000 milliseconds of spacing. -/
theorem uploadAudioToYoto_poll_spec (env : UploadEnv) (slot : UploadSlot) (url : String)
    (hslot : env.fetchUploadUrl = .ok { upload := some slot })
    (hurl : truthyStr slot.uploadUrl = some url)
    (hput : env.putAudio = .ok ()) :
    ((uploadAudioToYotoInner env).2.1 ≤ 60) ∧
    (∀ i t, i < 60 → pollFound (env.pollTranscode i) = some t →
      (∀ j, j < i → pollContinues (env.pollTranscode j) = true) →
      uploadAudioToYotoInner env = (.ok t, i + 1, 500 * i)) ∧
    ((∀ i, i < 60 → pollContinues (env.pollTranscode i) = true) →
      uploadAudioToYotoInner env =
        (.error (mkYotoAPIError "Transcoding timed out after 30 seconds"
          [("uploadId", ctxOfOptStr slot.uploadId), ("attempts", .num 60)]),
         60, 30000)) := by
  have hbase : uploadAudioToYotoInner env =
      (match pollAux env.pollTranscode 0 maxAttempts 0 0 with
       | .found t polls sleepMs => (.ok t, polls, sleepMs)
       | .timeout attempts polls sleepMs =>
         (.error (mkYotoAPIError "Transcoding timed out after 30 seconds"
           [("uploadId", ctxOfOptStr slot.uploadId), ("attempts", .num attempts)]),
          polls, sleepMs)
       | .raised e polls sleepMs => (.error e, polls, sleepMs)) := by
    unfold uploadAudioToYotoInner
    rw [hslot]
    dsimp only
    rw [hurl]
    dsimp only
    rw [hput]
  refine ⟨?_, fun i t hi hf hc => ?_, fun hc => ?_⟩
  · rw [hbase]
    have hcount := pollAux_count_le env.pollTranscode maxAttempts 0 0 0
    cases hp : pollAux env.pollTranscode 0 maxAttempts 0 0 <;>
      rw [hp] at hcount <;> simpa [pollCount, maxAttempts] using hcount
  · rw [hbase]
    have hfound := pollAux_found_at env.pollTranscode maxAttempts i 0 0 0 t
      (by simpa [maxAttempts] using hi)
      (by simpa using hf)
      (by simpa using hc)
    rw [hfound]
    simp
  · rw [hbase]
    have htime := pollAux_timeout_all env.pollTranscode maxAttempts 0 0 0
      (by simpa [maxAttempts] using hc)
    rw [htime]
    simp [maxAttempts]

/-- An upload environment whose first two polls answer 404 and whose
third poll carries a completed transcode. -/
def uploadEnvFoundW : UploadEnv :=
  { fetchUploadUrl := .ok { upload := some { uploadUrl := some "https://put-here", uploadId := some "uid-1" } }
    putAudio := .ok ()
    pollTranscode := fun i =>
      if i < 2 then .nonOk 404 "pending"
      else .ok { transcode := some { transcodedSha256 := "abc", transcodedInfo := none } } }

/-- An upload environment whose polls never report a hash. -/
def uploadEnvTimeoutW : UploadEnv :=
  { fetchUploadUrl := .ok { upload := some { uploadUrl := some "https://put-here", uploadId := some "uid-1" } }
    putAudio := .ok ()
    pollTranscode := fun _ => .nonOk 404 "pending" }

/-- C6 witness: with the hash arriving on poll index 2, the uploader
returns it after 3 polls and 1000ms of spacing; with no hash ever, it
fails with the timeout error carrying the upload id and attempt count 60
after 60 polls and 30000ms. -/
theorem uploadAudioToYoto_poll_spec_witness :
    uploadAudioToYotoInner uploadEnvFoundW =
      (.ok { transcodedSha256 := "abc", transcodedInfo := none }, 3, 1000) ∧
    uploadAudioToYotoInner uploadEnvTimeoutW =
      (.error (mkYotoAPIError "Transcoding timed out after 30 seconds"
        [("uploadId", .str "uid-1"), ("attempts", .num 60)]), 60, 30000) := by
  constructor
  · exact (uploadAudioToYoto_poll_spec uploadEnvFoundW
      { uploadUrl := some "https://put-here", uploadId := some "uid-1" }
      "https://put-here" rfl (by decide) rfl).2.1 2
      { transcodedSha256 := "abc", transcodedInfo := none }
      (by decide) (by decide) (by decide)
  · exact (uploadAudioToYoto_poll_spec uploadEnvTimeoutW
      { uploadUrl := some "https://put-here", uploadId := some "uid-1" }
      "https://put-here" rfl (by decide) rfl).2.2 (by decide)

/-! ## C9 -/

/-- The uniform result-shape invariant of the orchestrator: a success
carries no error and a transcode object, a failure carries an error
message. -/
def uniformShape (r : YotoUploadResult) : Prop :=
  (r.success = true → r.error = none ∧ r.transcodeInfo.isSome = true) ∧
  (r.success = false → r.error.isSome = true)

theorem createHeroCard_shape (env : CardApiEnv) (m : StoryMetadata)
    (t : TranscodedAudio) : uniformShape (createHeroCard env m t) := by
  unfold createHeroCard
  cases env.postContent (createHeroCardPayload m t) <;>
    simp [uniformShape]

theorem updateHeroCardInner_ok_success (env : CardApiEnv) (c : Card)
    (m : StoryMetadata) (t : TranscodedAudio) (r : YotoUploadResult)
    (h : updateHeroCardInner env c m t = .ok r) :
    r.success = true ∧ r.error = none ∧ r.transcodeInfo = some t := by
  unfold updateHeroCardInner at h
  repeat' first
    | split at h
    | dsimp only at h
  all_goals first
    | (simp only [Except.ok.injEq] at h; subst h; exact ⟨rfl, rfl, rfl⟩)
    | simp at h

theorem updateHeroCard_shape (env : CardApiEnv) (c : Card) (m : StoryMetadata)
    (t : TranscodedAudio) : uniformShape (updateHeroCard env c m t) := by
  unfold updateHeroCard
  cases hinner : updateHeroCardInner env c m t with
  | error e => simp [uniformShape]
  | ok r =>
    have hr := updateHeroCardInner_ok_success env c m t r hinner
    dsimp only
    constructor
    · intro _
      refine ⟨hr.2.1, ?_⟩
      rw [hr.2.2]
      rfl
    · intro hfalse
      rw [hr.1] at hfalse
      simp at hfalse

theorem syncCardStep_shape (env : OrchestratorEnv) (m : StoryMetadata)
    (t : TranscodedAudio) : uniformShape (syncCardStep env m t) := by
  unfold syncCardStep
  cases getHeroCard env.cardApi with
  | none => exact createHeroCard_shape env.cardApi m t
  | some c => exact updateHeroCard_shape env.cardApi c m t

theorem uploadAudioToYoto_success_audio (env : UploadEnv) :
    ((uploadAudioToYoto env).success = true →
      (uploadAudioToYoto env).transcodedAudio.isSome = true) ∧
    ((uploadAudioToYoto env).success = false →
      (uploadAudioToYoto env).error.isSome = true) := by
  unfold uploadAudioToYoto
  cases (uploadAudioToYotoInner env).1 <;> simp

theorem uploadStoryToYotoInner_ok_shape (env : OrchestratorEnv) (s : String)
    (m : StoryMetadata) (r : YotoUploadResult)
    (h : uploadStoryToYotoInner env s m = .ok r) : uniformShape r := by
  unfold uploadStoryToYotoInner at h
  dsimp only at h
  cases hcg : env.cacheGet (env.md5Hex s.trim) with
  | some t =>
    rw [hcg] at h
    dsimp only at h
    simp only [Except.ok.injEq] at h
    subst h
    exact syncCardStep_shape env m t
  | none =>
    rw [hcg] at h
    dsimp only at h
    cases him : env.importTts with
    | error e => rw [him] at h; simp at h
    | ok u =>
      rw [him] at h
      dsimp only at h
      cases hv : env.getRandomVoiceId with
      | error e => rw [hv] at h; simp at h
      | ok voiceId? =>
        rw [hv] at h
        dsimp only at h
        cases htv : truthyStr voiceId? with
        | none =>
          rw [htv] at h
          dsimp only at h
          simp only [Except.ok.injEq] at h
          subst h
          simp [uniformShape]
        | some voiceId =>
          rw [htv] at h
          dsimp only at h
          cases hga : env.generateAudio s voiceId with
          | error e => rw [hga] at h; simp at h
          | ok audioResult =>
            rw [hga] at h
            dsimp only at h
            by_cases hcond : (!audioResult.success || audioResult.audioBuffer.isNone) = true
            · rw [if_pos hcond] at h
              simp only [Except.ok.injEq] at h
              subst h
              simp [uniformShape]
            · rw [if_neg hcond] at h
              try dsimp only at h
              by_cases hus : (!(uploadAudioToYoto env.uploadEnv).success) = true
              · rw [if_pos hus] at h
                simp only [Except.ok.injEq] at h
                subst h
                constructor
                · intro hsucc
                  simp [uploadFailureResult] at hsucc
                · intro _
                  simp only [uploadFailureResult]
                  exact (uploadAudioToYoto_success_audio env.uploadEnv).2
                    (by simpa using hus)
              · rw [if_neg hus] at h
                cases hta : (uploadAudioToYoto env.uploadEnv).transcodedAudio with
                | some t =>
                  rw [hta] at h
                  dsimp only at h
                  simp only [Except.ok.injEq] at h
                  subst h
                  exact syncCardStep_shape env m t
                | none =>
                  rw [hta] at h
                  dsimp only at h
                  simp only [Except.ok.injEq] at h
                  subst h
                  simp [uniformShape]

/-- C9: for every behaviour of the collaborators and remote endpoints in
the environment, uploadStoryToYoto returns the uniform result shape: a
success carries no error and a transcode object, and every failure path is
converted into a result with `success = false` and an error message (the
function is total over the environment, so no modelled exception
escapes). -/
theorem uploadStoryToYoto_uniform_result (env : OrchestratorEnv) (storyText : String)
    (m : StoryMetadata) :
    ((uploadStoryToYoto env storyText m).success = true →
      (uploadStoryToYoto env storyText m).error = none ∧
      (uploadStoryToYoto env storyText m).transcodeInfo.isSome = true) ∧
    ((uploadStoryToYoto env storyText m).success = false →
      (uploadStoryToYoto env storyText m).error.isSome = true) := by
  have hshape : uniformShape (uploadStoryToYoto env storyText m) := by
    unfold uploadStoryToYoto
    cases hinner : uploadStoryToYotoInner env storyText m with
    | ok r => exact uploadStoryToYotoInner_ok_shape env storyText m r hinner
    | error e =>
      constructor
      · intro hs
        simp at hs
      · intro _
        simp
  exact hshape

/-- An orchestrator environment with no configured voices. -/
def orchEnvW : OrchestratorEnv :=
  { md5Hex := fun _ => "k"
    cacheGet := fun _ => none
    importTts := .ok ()
    getRandomVoiceId := .ok none
    generateAudio := fun _ _ => .ok { success := false, audioBuffer := none, error := none }
    uploadEnv :=
      { fetchUploadUrl := .nonOk 500 "down"
        putAudio := .nonOk 500 "down"
        pollTranscode := fun _ => .nonOk 500 "down" }
    cardApi :=
      { fetchContentMine := .nonOk 500 "down"
        fetchContentDetail := fun _ => .nonOk 500 "down"
        postContent := fun _ => .nonOk 500 "down" } }

/-- C9 witness: in the no-voices environment the orchestrator fails
uniformly, with an error message present. -/
theorem uploadStoryToYoto_uniform_result_witness :
    (uploadStoryToYoto orchEnvW "story" storyMetaX).error.isSome = true :=
  (uploadStoryToYoto_uniform_result orchEnvW "story" storyMetaX).2 (by decide)

end Yoto
